import Mathlib

/-!
Verification of the face-tracking control core of the frankeinstein
repository.  The Python sources are shallowly embedded over the rational
numbers: each helper (clamp, mix, limit_step, near_gain, ease_in_out) and
each per-tick update of the tracking scripts is translated into a Lean
function, and the spec claims are stated and settled as theorems about
those functions.

Embedded sources:
 * TEST_SEGUIMIENTO_COMPLETO.py  (namespace Fusion): eyes + head + blink
 * test_seguir_rostro.py         (namespace Pan): single pan axis
 * inmoov_face_tracker.py        (namespace Tracker): class InMoovFaceTracker
-/

namespace Fusion

/-- Python's abs on rationals, written so that it evaluates by kernel
reduction. -/
def pyabs (q : ℚ) : ℚ := if q < 0 then -q else q

/-- Python's two-argument min, written so that it evaluates by kernel
reduction. -/
def pymin (a b : ℚ) : ℚ := if a ≤ b then a else b

/-- Python's two-argument max, written so that it evaluates by kernel
reduction. -/
def pymax (a b : ℚ) : ℚ := if b ≤ a then a else b

/-- Helper clamp of TEST_SEGUIMIENTO_COMPLETO.py:
returns lo if v < lo else hi if v > hi else v. -/
def clamp (v lo hi : ℚ) : ℚ := if v < lo then lo else if v > hi then hi else v

/-- Helper mix of TEST_SEGUIMIENTO_COMPLETO.py: w * a + (1 - w) * b. -/
def mix (a b w : ℚ) : ℚ := w * a + (1 - w) * b

/-- Helper limit_step of TEST_SEGUIMIENTO_COMPLETO.py. -/
def limit_step (current target max_step : ℚ) : ℚ :=
  if current < target then pymin target (current + max_step)
  else pymax target (current - max_step)

/-- Helper near_gain of TEST_SEGUIMIENTO_COMPLETO.py. -/
def near_gain (e e0 min_gain : ℚ) : ℚ :=
  if e0 ≤ pyabs e then 1 else min_gain + (1 - min_gain) * (pyabs e / e0)

/-- Helper ease_in_out of TEST_SEGUIMIENTO_COMPLETO.py: 3 t^2 - 2 t^3. -/
def ease_in_out (t : ℚ) : ℚ := 3 * t ^ 2 - 2 * t ^ 3

/-- Inline deadband pattern of the loop scripts:
if abs(err_px) <= db then err_px = 0.0. -/
def deadband (db err : ℚ) : ℚ := if pyabs err ≤ db then 0 else err

/- Channel constants (PCA9685 pins). -/

def SERVO_ROLL_LEFT : ℕ := 12

def SERVO_ROLL_RIGHT : ℕ := 15

def SERVO_PITCH : ℕ := 14

def SERVO_YAW : ℕ := 13

def PIN_OJO_IZQ_H : ℕ := 10

def PIN_OJO_IZQ_V : ℕ := 8

def PIN_OJO_DER_H : ℕ := 11

def PIN_OJO_DER_V : ℕ := 9

def PIN_PARPADO_ABAJO : ℕ := 6

def PIN_PARPADO_ARRIBA : ℕ := 7

/- Head limits and centers. -/

def PITCH_MIN : ℚ := 60

def PITCH_MAX : ℚ := 180

def PITCH_CENTER : ℚ := 120

def ROLL_MIN : ℚ := 130

def ROLL_MAX : ℚ := 180

def ROLL_CENTER : ℚ := 155

def YAW_MIN : ℚ := 90

def YAW_MAX : ℚ := 180

def YAW_CENTER : ℚ := 135

/- Eye limits and centers. -/

def H_MIN : ℚ := 15

def H_MAX : ℚ := 165

def H_CENTER : ℚ := 90

def V_MIN_IZQ : ℚ := 90

def V_MAX_IZQ : ℚ := 120

def V_CENTER_IZQ : ℚ := 90

def V_MIN_DER : ℚ := 70

def V_MAX_DER : ℚ := 110

def V_CENTER_DER : ℚ := 90

/- Eyelid calibration. -/

def ANGLE_MIN_PARPADO_ABAJO : ℚ := 60

def ANGLE_MAX_PARPADO_ABAJO : ℚ := 130

def ANGLE_MIN_PARPADO_ARRIBA : ℚ := 90

def ANGLE_MAX_PARPADO_ARRIBA : ℚ := 140

/- Eye control gains. -/

def INVERT_H : ℚ := -1

def INVERT_V_IZQ : ℚ := -1

def INVERT_V_DER : ℚ := 1

def H_ABS_GAIN_DEG : ℚ := 65

def KP_H : ℚ := 9

def KI_H : ℚ := 0

def KD_H : ℚ := 1 / 4

def KP_V : ℚ := 9

def KI_V : ℚ := 0

def KD_V : ℚ := 1 / 10

def SMOOTH_ALPHA_H : ℚ := 48 / 100

def SMOOTH_ALPHA_V : ℚ := 35 / 100

def DEADBAND_PX_X_EYES : ℚ := 20

def DEADBAND_PX_Y_EYES : ℚ := 22

def I_CLAMP_EYES : ℚ := 25

def MAX_STEP_DEG_H : ℚ := 3

def MAX_STEP_DEG_V : ℚ := 2

def ERR_LP_ALPHA : ℚ := 28 / 100

def RETURN_CENTER_AFTER_MS_EYES : ℚ := 6000

/- Head control gains. -/

def INVERT_PITCH : ℚ := -1

def KP_PITCH : ℚ := 20

def KI_PITCH : ℚ := 1 / 20

def KD_PITCH : ℚ := 1

def SMOOTH_ALPHA_PITCH : ℚ := 1 / 2

def DEADBAND_PX_Y_HEAD : ℚ := 15

def INVERT_YAW : ℚ := -1

def KP_YAW : ℚ := 7

def KI_YAW : ℚ := 1 / 100

def KD_YAW : ℚ := 0

def SMOOTH_ALPHA_YAW : ℚ := 1 / 4

def DEADBAND_PX_X_HEAD : ℚ := 40

def I_CLAMP_HEAD : ℚ := 30

def LOST_AFTER_MS : ℚ := 300

def SEARCH_RATE_DPS_Y : ℚ := 30

def SEARCH_RATE_DPS_X : ℚ := 25

def RETURN_CENTER_AFTER_MS_HEAD : ℚ := 8000

/-- Eye-region mutable state of TEST_SEGUIMIENTO_COMPLETO.py
(module-level variables of the ESTADOS OJOS block). -/
structure EyesState where
  last_h_izq : ℚ
  last_h_der : ℚ
  last_v_izq : ℚ
  last_v_der : ℚ
  last_err_h_e : ℚ
  sum_err_h_e : ℚ
  last_err_v_e : ℚ
  sum_err_v_e : ℚ
  err_x_f : ℚ
  err_y_f : ℚ
  last_seen_ms_eyes : ℚ
  is_centered_eyes : Bool
deriving DecidableEq

/-- Per-tick inputs of the fused loop: face center, target point, frame
size, tick duration and wall clock in milliseconds. -/
structure TickInput where
  face_cx : ℚ
  face_cy : ℚ
  cx_frame : ℚ
  cy_frame : ℚ
  tx : ℚ
  ty : ℚ
  w : ℚ
  h : ℚ
  dt : ℚ
  now_ms : ℚ
deriving DecidableEq

/-- Intermediate PID values of the eyes branch, exposed next to the
updated state. -/
structure EyesOut where
  pid_h : ℚ
  pid_v : ℚ
  state : EyesState
deriving DecidableEq

/-- Face-present eyes branch of the fused main loop
(TEST_SEGUIMIENTO_COMPLETO.py lines 449-506), also returning the
intermediate PID outputs. -/
def eyesTrackOut (i : TickInput) (s : EyesState) : EyesOut :=
  let err_px_x_e := deadband DEADBAND_PX_X_EYES (i.face_cx - i.tx)
  let err_x_e := err_px_x_e / (i.w / 2)
  let err_px_y_e := deadband DEADBAND_PX_Y_EYES (i.face_cy - i.ty)
  let err_y_e := err_px_y_e / (i.h / 2)
  let err_x_f := (1 - ERR_LP_ALPHA) * s.err_x_f + ERR_LP_ALPHA * err_x_e
  let err_y_f := (1 - ERR_LP_ALPHA) * s.err_y_f + ERR_LP_ALPHA * err_y_e
  let g_h := near_gain err_x_f (25 / 100) (35 / 100)
  let g_v := near_gain err_y_f (25 / 100) (40 / 100)
  let sum_err_h_e := clamp (s.sum_err_h_e + err_x_f * i.dt) (-I_CLAMP_EYES) I_CLAMP_EYES
  let der_h_e := (err_x_f - s.last_err_h_e) / i.dt
  let pid_h := (KP_H * err_x_f + KI_H * sum_err_h_e + KD_H * der_h_e) * g_h
  let sum_err_v_e := clamp (s.sum_err_v_e + err_y_f * i.dt) (-I_CLAMP_EYES) I_CLAMP_EYES
  let der_v_e := (err_y_f - s.last_err_v_e) / i.dt
  let pid_v := (KP_V * err_y_f + KI_V * sum_err_v_e + KD_V * der_v_e) * g_v
  let abs_h := clamp (H_CENTER + INVERT_H * (H_ABS_GAIN_DEG * g_h) * err_x_f) H_MIN H_MAX
  let inc_h_izq := clamp (s.last_h_izq + INVERT_H * pid_h) H_MIN H_MAX
  let inc_h_der := clamp (s.last_h_der + INVERT_H * pid_h) H_MIN H_MAX
  let w_abs := (6 / 10) * near_gain err_x_f (35 / 100) (25 / 100)
  let desired_h_izq := mix abs_h inc_h_izq w_abs
  let desired_h_der := mix abs_h inc_h_der w_abs
  let desired_v_izq := clamp (s.last_v_izq + INVERT_V_IZQ * pid_v) V_MIN_IZQ V_MAX_IZQ
  let desired_v_der := clamp (s.last_v_der + INVERT_V_DER * pid_v) V_MIN_DER V_MAX_DER
  let smooth_h_izq := SMOOTH_ALPHA_H * desired_h_izq + (1 - SMOOTH_ALPHA_H) * s.last_h_izq
  let smooth_h_der := SMOOTH_ALPHA_H * desired_h_der + (1 - SMOOTH_ALPHA_H) * s.last_h_der
  let smooth_v_izq := SMOOTH_ALPHA_V * desired_v_izq + (1 - SMOOTH_ALPHA_V) * s.last_v_izq
  let smooth_v_der := SMOOTH_ALPHA_V * desired_v_der + (1 - SMOOTH_ALPHA_V) * s.last_v_der
  let lim_h_izq := limit_step s.last_h_izq smooth_h_izq MAX_STEP_DEG_H
  let lim_h_der := limit_step s.last_h_der smooth_h_der MAX_STEP_DEG_H
  let lim_v_izq := limit_step s.last_v_izq smooth_v_izq MAX_STEP_DEG_V
  let lim_v_der := limit_step s.last_v_der smooth_v_der MAX_STEP_DEG_V
  { pid_h := pid_h
    pid_v := pid_v
    state :=
      { last_h_izq := lim_h_izq
        last_h_der := lim_h_der
        last_v_izq := lim_v_izq
        last_v_der := lim_v_der
        last_err_h_e := err_x_f
        sum_err_h_e := sum_err_h_e
        last_err_v_e := err_y_f
        sum_err_v_e := sum_err_v_e
        err_x_f := err_x_f
        err_y_f := err_y_f
        last_seen_ms_eyes := i.now_ms
        is_centered_eyes := s.is_centered_eyes } }

/-- Face-present eyes branch, state part only. -/
def eyesTrack (i : TickInput) (s : EyesState) : EyesState :=
  (eyesTrackOut i s).state

/-- No-face eyes branch of the fused main loop
(TEST_SEGUIMIENTO_COMPLETO.py lines 554-573): return-to-center guarded
by RETURN_CENTER_AFTER_MS_EYES and the is_centered_eyes flag. -/
def eyesNoFace (now_ms : ℚ) (s : EyesState) : EyesState :=
  let time_without_e := now_ms - s.last_seen_ms_eyes
  if RETURN_CENTER_AFTER_MS_EYES < time_without_e ∧ s.is_centered_eyes = false then
    let step : ℚ := 15 / 100
    let lh_izq := clamp (s.last_h_izq + (H_CENTER - s.last_h_izq) * step) H_MIN H_MAX
    let lh_der := clamp (s.last_h_der + (H_CENTER - s.last_h_der) * step) H_MIN H_MAX
    let lv_izq := clamp (s.last_v_izq + (V_CENTER_IZQ - s.last_v_izq) * step) V_MIN_IZQ V_MAX_IZQ
    let lv_der := clamp (s.last_v_der + (V_CENTER_DER - s.last_v_der) * step) V_MIN_DER V_MAX_DER
    if pyabs (H_CENTER - lh_izq) < 1 ∧ pyabs (H_CENTER - lh_der) < 1 ∧
        pyabs (V_CENTER_IZQ - lv_izq) < 1 ∧ pyabs (V_CENTER_DER - lv_der) < 1 then
      { s with
        last_h_izq := H_CENTER
        last_h_der := H_CENTER
        last_v_izq := V_CENTER_IZQ
        last_v_der := V_CENTER_DER
        is_centered_eyes := true }
    else
      { s with
        last_h_izq := lh_izq
        last_h_der := lh_der
        last_v_izq := lv_izq
        last_v_der := lv_der }
  else s

/-- One eyes tick of the fused loop: face branch when a face was
detected, otherwise the no-face branch. -/
def eyesTick (face : Option TickInput) (now_ms : ℚ) (s : EyesState) : EyesState :=
  match face with
  | some i => eyesTrack i s
  | none => eyesNoFace now_ms s

/-- Head-region mutable state of TEST_SEGUIMIENTO_COMPLETO.py
(module-level variables of the ESTADOS CABEZA block). -/
structure HeadState where
  last_yaw : ℚ
  last_pitch : ℚ
  last_err_yaw : ℚ
  sum_err_yaw : ℚ
  last_err_pitch : ℚ
  sum_err_pitch : ℚ
  last_seen_ms_head : ℚ
  last_seen_dir_x : ℤ
  last_seen_dir_y : ℤ
  is_centered_head : Bool
  returning_to_center_head : Bool
deriving DecidableEq

/-- Face-present head branch of the fused main loop
(TEST_SEGUIMIENTO_COMPLETO.py lines 508-551). -/
def headTrack (i : TickInput) (s : HeadState) : HeadState :=
  let err_px_x_head := deadband DEADBAND_PX_X_HEAD ((i.face_cx - i.cx_frame) * INVERT_YAW)
  let err_x_head := err_px_x_head / (i.w / 2)
  let sum_err_yaw := clamp (s.sum_err_yaw + err_x_head * i.dt) (-I_CLAMP_HEAD) I_CLAMP_HEAD
  let der_x := (err_x_head - s.last_err_yaw) / i.dt
  let pid_out_yaw := KP_YAW * err_x_head + KI_YAW * sum_err_yaw + KD_YAW * der_x
  let desired_yaw := clamp (s.last_yaw + pid_out_yaw) YAW_MIN YAW_MAX
  let smooth_yaw := SMOOTH_ALPHA_YAW * desired_yaw + (1 - SMOOTH_ALPHA_YAW) * s.last_yaw
  let err_px_y_head := deadband DEADBAND_PX_Y_HEAD ((i.face_cy - i.cy_frame) * INVERT_PITCH)
  let err_y_head := err_px_y_head / (i.h / 2)
  let sum_err_pitch := clamp (s.sum_err_pitch + err_y_head * i.dt) (-I_CLAMP_HEAD) I_CLAMP_HEAD
  let der_y := (err_y_head - s.last_err_pitch) / i.dt
  let pid_out_pitch := KP_PITCH * err_y_head + KI_PITCH * sum_err_pitch + KD_PITCH * der_y
  let desired_pitch := clamp (s.last_pitch + pid_out_pitch) PITCH_MIN PITCH_MAX
  let smooth_pitch := SMOOTH_ALPHA_PITCH * desired_pitch + (1 - SMOOTH_ALPHA_PITCH) * s.last_pitch
  { last_yaw := smooth_yaw
    last_pitch := smooth_pitch
    last_err_yaw := err_x_head
    sum_err_yaw := sum_err_yaw
    last_err_pitch := err_y_head
    sum_err_pitch := sum_err_pitch
    last_seen_ms_head := i.now_ms
    last_seen_dir_x := if i.face_cx < i.cx_frame then -1 else 1
    last_seen_dir_y := if i.face_cy < i.cy_frame then -1 else 1
    is_centered_head := false
    returning_to_center_head := false }

/-- No-face head branch of the fused main loop
(TEST_SEGUIMIENTO_COMPLETO.py lines 576-625): return-to-center after
RETURN_CENTER_AFTER_MS_HEAD, search sweep after LOST_AFTER_MS. -/
def headNoFace (now_ms dt : ℚ) (s : HeadState) : HeadState :=
  let time_without_head := now_ms - s.last_seen_ms_head
  if RETURN_CENTER_AFTER_MS_HEAD < time_without_head ∧ s.is_centered_head = false then
    let diff_yaw := YAW_CENTER - s.last_yaw
    let diff_pitch := PITCH_CENTER - s.last_pitch
    if 1 < pyabs diff_yaw ∨ 1 < pyabs diff_pitch then
      { s with
        last_yaw := clamp (s.last_yaw + diff_yaw * (15 / 100)) YAW_MIN YAW_MAX
        last_pitch := clamp (s.last_pitch + diff_pitch * (15 / 100)) PITCH_MIN PITCH_MAX
        returning_to_center_head := true }
    else
      { s with
        last_yaw := YAW_CENTER
        last_pitch := PITCH_CENTER
        is_centered_head := true
        returning_to_center_head := false
        last_seen_dir_x := 0
        last_seen_dir_y := 0 }
  else if LOST_AFTER_MS < time_without_head ∧
      (s.last_seen_dir_x ≠ 0 ∨ s.last_seen_dir_y ≠ 0) ∧ s.is_centered_head = false then
    let ly :=
      if s.last_seen_dir_x ≠ 0 then
        clamp (s.last_yaw + (s.last_seen_dir_x : ℚ) * INVERT_YAW * SEARCH_RATE_DPS_X * dt)
          YAW_MIN YAW_MAX
      else s.last_yaw
    let lp :=
      if s.last_seen_dir_y ≠ 0 then
        clamp (s.last_pitch + (s.last_seen_dir_y : ℚ) * INVERT_PITCH * SEARCH_RATE_DPS_Y * dt)
          PITCH_MIN PITCH_MAX
      else s.last_pitch
    { s with last_yaw := ly, last_pitch := lp }
  else s

/-- One head tick of the fused loop. -/
def headTick (face : Option TickInput) (now_ms dt : ℚ) (s : HeadState) : HeadState :=
  match face with
  | some i => headTrack i s
  | none => headNoFace now_ms dt s

/-- Behavioral regimes of a tracked region (spec section 4.5). -/
inductive Mode where
  | tracking
  | searching
  | centering
  | centered
  | idle
deriving DecidableEq

/-- Regime the head region is in on a given tick, read off from the
branch guards of the fused main loop: the face branch is TRACKING, the
no-face branch is CENTERING past RETURN_CENTER_AFTER_MS_HEAD, SEARCHING
past LOST_AFTER_MS with a known direction, CENTERED once the centering
snap has run, and IDLE otherwise. -/
def headMode (have_face : Bool) (now_ms : ℚ) (s : HeadState) : Mode :=
  if have_face then Mode.tracking
  else
    let time_without_head := now_ms - s.last_seen_ms_head
    if RETURN_CENTER_AFTER_MS_HEAD < time_without_head ∧ s.is_centered_head = false then
      Mode.centering
    else if LOST_AFTER_MS < time_without_head ∧
        (s.last_seen_dir_x ≠ 0 ∨ s.last_seen_dir_y ≠ 0) ∧ s.is_centered_head = false then
      Mode.searching
    else if s.is_centered_head then Mode.centered
    else Mode.idle

/- Blink animator parameters. -/

def SUPERIOR_ESCALA_CIERRE : ℚ := 1

def INFERIOR_ESCALA_CIERRE : ℚ := 1

/-- Helper eyelid_open_angles: (sup_open, inf_open). -/
def eyelid_open_angles : ℚ × ℚ := (ANGLE_MIN_PARPADO_ARRIBA, ANGLE_MIN_PARPADO_ABAJO)

/-- Helper eyelid_closed_angles: (sup_close, inf_close). -/
def eyelid_closed_angles : ℚ × ℚ :=
  (eyelid_open_angles.1 +
      SUPERIOR_ESCALA_CIERRE * (ANGLE_MAX_PARPADO_ARRIBA - ANGLE_MIN_PARPADO_ARRIBA),
    eyelid_open_angles.2 +
      INFERIOR_ESCALA_CIERRE * (ANGLE_MAX_PARPADO_ABAJO - ANGLE_MIN_PARPADO_ABAJO))

/-- Phases of the non-blocking blink state machine. -/
inductive BlinkPhase where
  | idle
  | closing
  | hold
  | opening
deriving DecidableEq

/-- Blink state of TEST_SEGUIMIENTO_COMPLETO.py (ESTADO PARPADEO block),
with the last angles written to the two eyelid servos carried along. -/
structure BlinkState where
  blink_phase : BlinkPhase
  phase_t0 : ℚ
  next_blink_time : ℚ
  blink_queue : ℤ
  dur_close_sup : ℚ
  dur_open_sup : ℚ
  dur_close_inf : ℚ
  dur_open_inf : ℚ
  hold_dur : ℚ
  ang_sup : ℚ
  ang_inf : ℚ
deriving DecidableEq

/-- Outcomes of the random draws consumed by the blink animator during
one tick: the double-blink coin, the four randomized phase durations in
seconds, the hold duration, the intra-double pause and the next blink
interval. -/
structure BlinkRnd where
  double_roll : Bool
  d_close_sup : ℚ
  d_open_sup : ℚ
  d_close_inf : ℚ
  d_open_inf : ℚ
  hold_len : ℚ
  pause_len : ℚ
  interval_len : ℚ
deriving DecidableEq

/-- schedule_next_blink of TEST_SEGUIMIENTO_COMPLETO.py: choose a single
or a double blink and fire immediately. -/
def schedule_next_blink (r : BlinkRnd) (now : ℚ) (s : BlinkState) : BlinkState :=
  { s with
    blink_queue := if r.double_roll then 2 else 1
    next_blink_time := now }

/-- start_blink of TEST_SEGUIMIENTO_COMPLETO.py: enter closing and draw
the per-lid randomized durations. -/
def start_blink (r : BlinkRnd) (now : ℚ) (s : BlinkState) : BlinkState :=
  { s with
    blink_phase := BlinkPhase.closing
    phase_t0 := now
    dur_close_sup := r.d_close_sup
    dur_open_sup := r.d_open_sup
    dur_close_inf := r.d_close_inf
    dur_open_inf := r.d_open_inf
    hold_dur := r.hold_len }

/-- update_blink of TEST_SEGUIMIENTO_COMPLETO.py (lines 289-342): one
non-blocking frame of the eyelid animation. -/
def update_blink (r : BlinkRnd) (now : ℚ) (s : BlinkState) : BlinkState :=
  match s.blink_phase with
  | BlinkPhase.idle =>
    if s.next_blink_time ≤ now then
      let s1 := if s.blink_queue = 0 then schedule_next_blink r now s else s
      if 0 < s1.blink_queue then start_blink r now s1 else s1
    else s
  | BlinkPhase.closing =>
    let sup_open := eyelid_open_angles.1
    let inf_open := eyelid_open_angles.2
    let sup_close := eyelid_closed_angles.1
    let inf_close := eyelid_closed_angles.2
    let k_sup := clamp ((now - s.phase_t0) / pymax (1 / 1000) s.dur_close_sup) 0 1
    let k_inf := clamp ((now - s.phase_t0) / pymax (1 / 1000) s.dur_close_inf) 0 1
    let e_sup := ease_in_out k_sup
    let e_inf := ease_in_out k_inf
    let s1 :=
      { s with
        ang_sup := sup_open + (sup_close - sup_open) * e_sup
        ang_inf := inf_open + (inf_close - inf_open) * e_inf }
    if 1 ≤ k_sup ∧ 1 ≤ k_inf then
      { s1 with blink_phase := BlinkPhase.hold, phase_t0 := now }
    else s1
  | BlinkPhase.hold =>
    if s.hold_dur ≤ now - s.phase_t0 then
      { s with blink_phase := BlinkPhase.opening, phase_t0 := now }
    else s
  | BlinkPhase.opening =>
    let sup_open := eyelid_open_angles.1
    let inf_open := eyelid_open_angles.2
    let sup_close := eyelid_closed_angles.1
    let inf_close := eyelid_closed_angles.2
    let k_sup := clamp ((now - s.phase_t0) / pymax (1 / 1000) s.dur_open_sup) 0 1
    let k_inf := clamp ((now - s.phase_t0) / pymax (1 / 1000) s.dur_open_inf) 0 1
    let e_sup := ease_in_out k_sup
    let e_inf := ease_in_out k_inf
    let s1 :=
      { s with
        ang_sup := sup_close + (sup_open - sup_close) * e_sup
        ang_inf := inf_close + (inf_open - inf_close) * e_inf }
    if 1 ≤ k_sup ∧ 1 ≤ k_inf then
      let q := s1.blink_queue - 1
      { s1 with
        blink_queue := q
        next_blink_time := if 0 < q then now + r.pause_len else now + r.interval_len
        blink_phase := BlinkPhase.idle }
    else s1

/-- Run the blink animator over a list of (tick time, random draws). -/
def runBlink : List (ℚ × BlinkRnd) → BlinkState → BlinkState
  | [], s => s
  | (t, r) :: rest, s => runBlink rest (update_blink r t s)

/-- Phase after each tick of a blink run. -/
def blinkPhases : List (ℚ × BlinkRnd) → BlinkState → List BlinkPhase
  | [], _ => []
  | (t, r) :: rest, s =>
    let s1 := update_blink r t s
    s1.blink_phase :: blinkPhases rest s1

/-- Servo writes performed by center_eyes (channel, angle). -/
def center_eyes_writes : List (ℕ × ℚ) :=
  [(PIN_OJO_IZQ_H, H_CENTER), (PIN_OJO_DER_H, H_CENTER),
    (PIN_OJO_IZQ_V, V_CENTER_IZQ), (PIN_OJO_DER_V, V_CENTER_DER)]

/-- Servo writes performed by center_head. -/
def center_head_writes : List (ℕ × ℚ) :=
  [(SERVO_YAW, YAW_CENTER), (SERVO_PITCH, PITCH_CENTER),
    (SERVO_ROLL_LEFT, ROLL_CENTER), (SERVO_ROLL_RIGHT, ROLL_CENTER)]

/-- Servo writes performed by center_eyelids_open. -/
def center_eyelids_open_writes : List (ℕ × ℚ) :=
  [(PIN_PARPADO_ARRIBA, eyelid_open_angles.1), (PIN_PARPADO_ABAJO, eyelid_open_angles.2)]

/-- Servo writes performed by center_all. -/
def center_all_writes : List (ℕ × ℚ) :=
  center_eyes_writes ++ center_head_writes ++ center_eyelids_open_writes

/-- Servo writes performed by cleanup_and_exit of
TEST_SEGUIMIENTO_COMPLETO.py (lines 347-360): center_all, then the head
pitch is commanded to 135. -/
def cleanup_writes : List (ℕ × ℚ) := center_all_writes ++ [(SERVO_PITCH, 135)]

/-- Last angle commanded to a channel by a write sequence. -/
def finalAngle (l : List (ℕ × ℚ)) (ch : ℕ) : Option ℚ :=
  l.foldl (fun acc p => if p.1 = ch then some p.2 else acc) none

/-- Eye servo writes of one tracking tick of the fused loop
(TEST_SEGUIMIENTO_COMPLETO.py lines 497-501), in program order. -/
def fusionEyeWrites (h_izq h_der v_izq v_der : ℚ) : List (ℕ × ℚ) :=
  [(PIN_OJO_IZQ_H, h_izq), (PIN_OJO_DER_H, h_der),
    (PIN_OJO_IZQ_V, v_izq), (PIN_OJO_DER_V, v_der)]

end Fusion

/-- Run a sequence of UNGUARDED servo writes (the bare
kit.servo[ch].angle assignments of the fused scripts) against a set of
faulty channels: a write to a faulty channel raises, aborting the rest
of the sequence.  Returns the writes actually performed and the channel
whose write raised, if any. -/
def writeRun (fault : ℕ → Bool) : List (ℕ × ℚ) → List (ℕ × ℚ) × Option ℕ
  | [] => ([], none)
  | p :: rest =>
    if fault p.1 then ([], some p.1)
    else
      let r := writeRun fault rest
      (p :: r.1, r.2)

namespace Pan

/-- Helper clamp of test_seguir_rostro.py. -/
def clamp (v lo hi : ℚ) : ℚ := if v < lo then lo else if v > hi then hi else v

def SERVO_PAN : ℕ := 13

def ANGLE_MIN : ℚ := 90

def ANGLE_MAX : ℚ := 180

def INVERT_DIR : ℚ := -1

def KP : ℚ := 7

def KI : ℚ := 1 / 100

def KD : ℚ := 0

def I_CLAMP : ℚ := 30

def SMOOTH_ALPHA : ℚ := 1 / 4

def DEADBAND_PX : ℚ := 40

def LOST_AFTER_MS : ℚ := 300

def SEARCH_RATE_DPS : ℚ := 25

def SEARCH_FLIP : ℤ := 1

def RETURN_CENTER_AFTER_MS : ℚ := 8000

def CENTER_ANGLE : ℚ := 90

/-- Mutable state of test_seguir_rostro.py. -/
structure PanState where
  last_ang : ℚ
  last_err : ℚ
  sum_err : ℚ
  last_seen_ms : ℚ
  last_seen_dir : ℤ
  is_centered : Bool
  returning_to_center : Bool
deriving DecidableEq

/-- Face observation consumed by the pan loop: face center x, frame
center x and frame width. -/
structure PanObs where
  cx : ℚ
  cx_frame : ℚ
  w : ℚ
deriving DecidableEq

/-- Face-present branch of test_seguir_rostro.py (lines 125-171):
deadband, PID with anti-windup, clamp to [ANGLE_MIN, ANGLE_MAX],
exponential smoothing. -/
def panFace (o : PanObs) (now_ms dt : ℚ) (s : PanState) : PanState :=
  let err_px := Fusion.deadband DEADBAND_PX ((o.cx - o.cx_frame) * INVERT_DIR)
  let err := err_px / (o.w / 2)
  let sum_err := clamp (s.sum_err + err * dt) (-I_CLAMP) I_CLAMP
  let der := (err - s.last_err) / dt
  let pid_out := KP * err + KI * sum_err + KD * der
  let desired := clamp (s.last_ang + pid_out) ANGLE_MIN ANGLE_MAX
  let smooth_ang := SMOOTH_ALPHA * desired + (1 - SMOOTH_ALPHA) * s.last_ang
  { last_ang := smooth_ang
    last_err := err
    sum_err := sum_err
    last_seen_ms := now_ms
    last_seen_dir := if o.cx < o.cx_frame then -1 else 1
    is_centered := false
    returning_to_center := false }

/-- No-face branch of test_seguir_rostro.py (lines 181-229):
return-to-center after RETURN_CENTER_AFTER_MS, search sweep after
LOST_AFTER_MS, hold otherwise. -/
def panNoFace (now_ms dt : ℚ) (s : PanState) : PanState :=
  let time_without_face := now_ms - s.last_seen_ms
  if RETURN_CENTER_AFTER_MS < time_without_face ∧ s.is_centered = false then
    let diff := CENTER_ANGLE - s.last_ang
    if 1 < Fusion.pyabs diff then
      { s with
        last_ang := clamp (s.last_ang + diff * (1 / 10)) ANGLE_MIN ANGLE_MAX
        returning_to_center := true }
    else
      { s with
        last_ang := CENTER_ANGLE
        is_centered := true
        returning_to_center := false
        last_seen_dir := 0 }
  else if LOST_AFTER_MS < time_without_face ∧ s.last_seen_dir ≠ 0 ∧ s.is_centered = false then
    let flip : ℚ := if SEARCH_FLIP = 1 then -1 else 1
    let search_dir := (s.last_seen_dir : ℚ) * flip
    { s with
      last_ang := clamp (s.last_ang + search_dir * SEARCH_RATE_DPS * dt) ANGLE_MIN ANGLE_MAX }
  else s

/-- One tick of the pan loop. -/
def panTick (face : Option PanObs) (now_ms dt : ℚ) (s : PanState) : PanState :=
  match face with
  | some o => panFace o now_ms dt s
  | none => panNoFace now_ms dt s

/-- Servo write of the finally block of test_seguir_rostro.py
(lines 247-250): the pan axis is returned to 90. -/
def pan_cleanup_writes : List (ℕ × ℚ) := [(SERVO_PAN, 90)]

end Pan

namespace Tracker

/-- clamp method of InMoovFaceTracker: max(min_val, min(max_val, value)). -/
def clamp (value min_val max_val : ℚ) : ℚ :=
  Fusion.pymax min_val (Fusion.pymin max_val value)

def KP_EYES : ℚ := 15 / 100

def KP_HEAD : ℚ := 8 / 100

def DEADBAND_X : ℚ := 40

def DEADBAND_Y : ℚ := 30

def HEAD_THRESHOLD : ℚ := 70 / 100

def SMOOTH_ALPHA : ℚ := 3 / 10

def EYE_H_MIN : ℚ := 70

def EYE_H_MAX : ℚ := 110

def EYE_V_MIN : ℚ := 70

def EYE_V_MAX : ℚ := 110

def PITCH_MIN : ℚ := 60

def PITCH_MAX : ℚ := 120

/-- Current servo positions held by InMoovFaceTracker. -/
structure TrackerState where
  current_eye_left_h : ℚ
  current_eye_right_h : ℚ
  current_eye_left_v : ℚ
  current_eye_right_v : ℚ
  current_pitch : ℚ
deriving DecidableEq

/-- calculate_eye_position of inmoov_face_tracker.py (lines 247-290):
deadband (strict comparison), proportional step, clamping, exponential
smoothing; returns the four new eye angles. -/
def calculate_eye_position (s : TrackerState) (error_x error_y : ℚ) : ℚ × ℚ × ℚ × ℚ :=
  let ex := if Fusion.pyabs error_x < DEADBAND_X then 0 else error_x
  let ey := if Fusion.pyabs error_y < DEADBAND_Y then 0 else error_y
  let delta_h := -ex * KP_EYES
  let nlh := clamp (s.current_eye_left_h + delta_h) EYE_H_MIN EYE_H_MAX
  let nrh := clamp (s.current_eye_right_h + delta_h) EYE_H_MIN EYE_H_MAX
  let delta_v := -ey * KP_EYES
  let nlv := clamp (s.current_eye_left_v + delta_v) EYE_V_MIN EYE_V_MAX
  let nrv := clamp (s.current_eye_right_v + delta_v) EYE_V_MIN EYE_V_MAX
  (SMOOTH_ALPHA * nlh + (1 - SMOOTH_ALPHA) * s.current_eye_left_h,
    SMOOTH_ALPHA * nrh + (1 - SMOOTH_ALPHA) * s.current_eye_right_h,
    SMOOTH_ALPHA * nlv + (1 - SMOOTH_ALPHA) * s.current_eye_left_v,
    SMOOTH_ALPHA * nrv + (1 - SMOOTH_ALPHA) * s.current_eye_right_v)

/-- set_servo_safe of inmoov_face_tracker.py (lines 229-241), lifted to
a write sequence: each write clamps its angle to the physical 0-180
range; a write to a faulty channel is caught, logged and skipped, and
the remaining writes still run. -/
def writeSafeRun (fault : ℕ → Bool) : List (ℕ × ℚ) → List (ℕ × ℚ)
  | [] => []
  | p :: rest =>
    if fault p.1 then writeSafeRun fault rest
    else (p.1, Fusion.pymax 0 (Fusion.pymin 180 p.2)) :: writeSafeRun fault rest

/-- Channels and angles written by update_servos of
inmoov_face_tracker.py (lines 327-344), in program order. -/
def update_servos_writes (eye_left_h eye_right_h eye_left_v eye_right_v pitch : ℚ) :
    List (ℕ × ℚ) :=
  [(6, eye_left_h), (7, eye_right_h), (8, eye_left_v), (9, eye_right_v), (2, pitch)]

end Tracker

/-- A MediaPipe detection as consumed by the trackers: confidence score
and relative bounding box. -/
structure Detection where
  score : ℚ
  xmin : ℚ
  ymin : ℚ
  width : ℚ
  height : ℚ
deriving DecidableEq

/-- Detection choice of TEST_SEGUIMIENTO_COMPLETO.py (line 443) and
test_seguir_rostro.py (line 131): max(results.detections, key=score),
keeping the earliest detection among ties like Python max does. -/
def maxByScore : List Detection → Option Detection
  | [] => none
  | d :: ds => some (ds.foldl (fun best x => if best.score < x.score then x else best) d)

/-- Detection choice of inmoov_face_tracker.py (line 392):
results.detections[0], the first detection of the list. -/
def firstDetection (ds : List Detection) : Option Detection := ds.head?

namespace Fusion

/-- Eye-region state at session start of TEST_SEGUIMIENTO_COMPLETO.py
(ESTADOS OJOS block), taking the session start time as 0 ms. -/
def eyesInit : EyesState :=
  { last_h_izq := H_CENTER
    last_h_der := H_CENTER
    last_v_izq := V_CENTER_IZQ
    last_v_der := V_CENTER_DER
    last_err_h_e := 0
    sum_err_h_e := 0
    last_err_v_e := 0
    sum_err_v_e := 0
    err_x_f := 0
    err_y_f := 0
    last_seen_ms_eyes := 0
    is_centered_eyes := false }

/-- Eye-region state with the left horizontal eye parked at 120 degrees
and all PID and filter state at rest. -/
def restState120 : EyesState := { eyesInit with last_h_izq := 120 }

/-- Tick input with the face exactly on the 640x480 target point, so
both eye pixel offsets are 0, inside both deadbands. -/
def onTargetInput : TickInput :=
  { face_cx := 320
    face_cy := 240
    cx_frame := 320
    cy_frame := 240
    tx := 320
    ty := 240
    w := 640
    h := 480
    dt := 1 / 30
    now_ms := 0 }

/-- Tick input with the face far to the right (x = 620) on a 640x480
frame, at wall clock 7100 ms. -/
def farRightInput : TickInput :=
  { face_cx := 620
    face_cy := 240
    cx_frame := 320
    cy_frame := 240
    tx := 320
    ty := 240
    w := 640
    h := 480
    dt := 1 / 30
    now_ms := 7100 }

/-- Eyes state after a first long loss (tick at 7000 ms with no face):
the eyes snap to center and is_centered_eyes becomes true. -/
def lostEyes1 : EyesState := eyesNoFace 7000 eyesInit

/-- Eyes state after the face is reacquired far right at 7100 ms. -/
def reacqEyes : EyesState := eyesTrack farRightInput lostEyes1

/-- Eyes state after a second long loss (tick at 14000 ms, 6900 ms past
the reacquisition, past RETURN_CENTER_AFTER_MS_EYES again). -/
def lostEyes2 : EyesState := eyesNoFace 14000 reacqEyes

/-- Blink state at session start: idle, eyelids at the open angles, no
pending blink, with next_blink_time already expired (taken as 0). -/
def blinkInit : BlinkState :=
  { blink_phase := BlinkPhase.idle
    phase_t0 := 0
    next_blink_time := 0
    blink_queue := 0
    dur_close_sup := 0
    dur_open_sup := 0
    dur_close_inf := 0
    dur_open_inf := 0
    hold_dur := 0
    ang_sup := eyelid_open_angles.1
    ang_inf := eyelid_open_angles.2 }

/-- Fixed random draws for a concrete blink run: a double blink, close
durations 50/60 ms, open durations 100/120 ms, hold 40 ms, pause 100 ms,
next interval 3 s — all inside the configured ranges. -/
def doubleRnd : BlinkRnd :=
  { double_roll := true
    d_close_sup := 5 / 100
    d_open_sup := 10 / 100
    d_close_inf := 6 / 100
    d_open_inf := 12 / 100
    hold_len := 4 / 100
    pause_len := 10 / 100
    interval_len := 3 }

/-- Head state looking hard right (yaw 170°, pitch 150°) with a known
last-seen direction, last seen at time 0, not centered. -/
def headAway : HeadState :=
  { last_yaw := 170
    last_pitch := 150
    last_err_yaw := 0
    sum_err_yaw := 0
    last_err_pitch := 0
    sum_err_pitch := 0
    last_seen_ms_head := 0
    last_seen_dir_x := 1
    last_seen_dir_y := 1
    is_centered_head := false
    returning_to_center_head := false }

/-- Head state within 1° of both center angles, last seen at time 0,
not yet flagged centered. -/
def headNear : HeadState := { headAway with last_yaw := 271 / 2, last_pitch := 241 / 2 }

/-- Tick times of the concrete blink run. -/
def doubleTicks : List (ℚ × BlinkRnd) :=
  [(0, doubleRnd), (1 / 10, doubleRnd), (2 / 10, doubleRnd), (35 / 100, doubleRnd),
    (5 / 10, doubleRnd), (7 / 10, doubleRnd), (8 / 10, doubleRnd), (1, doubleRnd),
    (3 / 2, doubleRnd)]

end Fusion

namespace Pan

/-- Pan state at session start of test_seguir_rostro.py, taking the
session start time as 0 ms. -/
def panInit : PanState :=
  { last_ang := 90
    last_err := 0
    sum_err := 0
    last_seen_ms := 0
    last_seen_dir := 0
    is_centered := false
    returning_to_center := false }

/-- Observation of a face pinned to the left edge of a 640-px frame:
after direction inversion the normalized error is the constant 1. -/
def leftEdgeObs : PanObs := { cx := 0, cx_frame := 320, w := 640 }

/-- One windup tick: the face branch with constant error 1.0 and
dt = 0.1 s, as in the anti-windup scenario of the spec. -/
def panWindupStep (s : PanState) : PanState := panFace leftEdgeObs 0 (1 / 10) s

end Pan

/-- Two detections with distinct confidence scores, the weaker one
first in the list. -/
def lowFirstDets : List Detection :=
  [{ score := 1 / 2, xmin := 0, ymin := 0, width := 1 / 10, height := 1 / 10 },
    { score := 9 / 10, xmin := 1 / 2, ymin := 1 / 2, width := 1 / 10, height := 1 / 10 }]




/- Shared helper lemmas about the embedded primitives. -/

/-- The executable Python-style abs agrees with the mathematical one. -/
lemma pyabs_eq_abs (q : ℚ) : Fusion.pyabs q = |q| := by
  unfold Fusion.pyabs
  split_ifs with h
  · exact (abs_of_neg h).symm
  · exact (abs_of_nonneg (not_lt.mp h)).symm

/-- The executable Python-style min agrees with the mathematical one. -/
lemma pymin_eq_min (a b : ℚ) : Fusion.pymin a b = min a b := by
  unfold Fusion.pymin
  split_ifs with h
  · exact (min_eq_left h).symm
  · exact (min_eq_right (not_le.mp h).le).symm

/-- The executable Python-style max agrees with the mathematical one. -/
lemma pymax_eq_max (a b : ℚ) : Fusion.pymax a b = max a b := by
  unfold Fusion.pymax
  split_ifs with h
  · exact (max_eq_left h).symm
  · exact (max_eq_right (not_le.mp h).le).symm

/-- The clamp helper lands in [lo, hi] whenever lo ≤ hi. -/
lemma clamp_mem (v lo hi : ℚ) (h : lo ≤ hi) :
    lo ≤ Fusion.clamp v lo hi ∧ Fusion.clamp v lo hi ≤ hi := by
  unfold Fusion.clamp
  split_ifs with h1 h2 <;> constructor <;> linarith

/-- The pan script's clamp is the same function as the fused script's. -/
lemma pan_clamp_eq : Pan.clamp = Fusion.clamp := rfl

/-- A convex combination of two values of [lo, hi] stays in [lo, hi]. -/
lemma convex_mem {lo hi a b w : ℚ} (hla : lo ≤ a) (hah : a ≤ hi) (hlb : lo ≤ b)
    (hbh : b ≤ hi) (hw0 : 0 ≤ w) (hw1 : w ≤ 1) :
    lo ≤ w * a + (1 - w) * b ∧ w * a + (1 - w) * b ≤ hi := by
  constructor <;> nlinarith

/-- near_gain stays in [min_gain, 1] for a positive knee e0 and a
min_gain of [0, 1]. -/
lemma near_gain_mem (e e0 mg : ℚ) (h0 : 0 < e0) (hm1 : mg ≤ 1) :
    mg ≤ Fusion.near_gain e e0 mg ∧ Fusion.near_gain e e0 mg ≤ 1 := by
  unfold Fusion.near_gain
  rw [pyabs_eq_abs]
  split_ifs with h
  · exact ⟨hm1, le_refl 1⟩
  · push_neg at h
    have hq0 : 0 ≤ |e| / e0 := div_nonneg (abs_nonneg e) h0.le
    have hq1 : |e| / e0 ≤ 1 := (div_le_one h0).mpr h.le
    constructor <;> nlinarith

/-- limit_step stays between its current and its target value when the
step bound is nonnegative. -/
lemma limit_step_between (c t m : ℚ) (hm : 0 ≤ m) :
    min c t ≤ Fusion.limit_step c t m ∧ Fusion.limit_step c t m ≤ max c t := by
  unfold Fusion.limit_step
  rw [pymin_eq_min, pymax_eq_max]
  split_ifs with h
  · constructor
    · refine le_min (min_le_right c t) ?_
      exact le_trans (min_le_left c t) (by linarith)
    · exact le_trans (min_le_left t (c + m)) (le_max_right c t)
  · push_neg at h
    constructor
    · have h1 : t ≤ max t (c - m) := le_max_left t (c - m)
      exact le_trans (min_le_right c t) h1
    · refine max_le (le_trans h (le_max_left c t)) ?_
      exact le_trans (by linarith : c - m ≤ c) (le_max_left c t)

/-- limit_step moves by at most the step bound. -/
lemma limit_step_dist (c t m : ℚ) (hm : 0 ≤ m) :
    |Fusion.limit_step c t m - c| ≤ m := by
  unfold Fusion.limit_step
  rw [pymin_eq_min, pymax_eq_max]
  split_ifs with h
  · rw [abs_le]
    constructor
    · have := le_min h.le (by linarith : c ≤ c + m)
      linarith [this]
    · linarith [min_le_right t (c + m)]
  · push_neg at h
    rw [abs_le]
    constructor
    · linarith [le_max_right t (c - m)]
    · have := max_le h (by linarith : c - m ≤ c)
      linarith [this]

/-- limit_step reaches its target exactly when the target is within the
step bound of the current value. -/
lemma limit_step_reach (c t m : ℚ) (h : |t - c| ≤ m) : Fusion.limit_step c t m = t := by
  rw [abs_le] at h
  unfold Fusion.limit_step
  rw [pymin_eq_min, pymax_eq_max]
  split_ifs with hc
  · exact min_eq_left (by linarith)
  · push_neg at hc
    exact max_eq_left (by linarith)

/-- Any value produced by the clamp-then-smooth-then-limit pipeline of
the eye horizontal axes stays in [lo, hi]: limit_step applied to a
previous in-range value and a convex smoothing of an in-range desired
value with that previous value. -/
lemma pipeline_mem {lo hi last desired α m : ℚ} (hll : lo ≤ last) (hlh : last ≤ hi)
    (hdl : lo ≤ desired) (hdh : desired ≤ hi) (hα0 : 0 ≤ α) (hα1 : α ≤ 1) (hm : 0 ≤ m) :
    lo ≤ Fusion.limit_step last (α * desired + (1 - α) * last) m ∧
      Fusion.limit_step last (α * desired + (1 - α) * last) m ≤ hi := by
  have hs := convex_mem hdl hdh hll hlh hα0 hα1
  have hb := limit_step_between last (α * desired + (1 - α) * last) m hm
  constructor
  · exact le_trans (le_min hll hs.1) hb.1
  · exact le_trans hb.2 (max_le hlh hs.2)

/-- The absolute/incremental blend weight w_abs of the eyes branch lies
in [0, 1] for every filtered error. -/
lemma w_abs_mem (e : ℚ) :
    0 ≤ 6 / 10 * Fusion.near_gain e (35 / 100) (25 / 100) ∧
      6 / 10 * Fusion.near_gain e (35 / 100) (25 / 100) ≤ 1 := by
  have h := near_gain_mem e (35 / 100) (25 / 100) (by norm_num) (by norm_num)
  constructor <;> nlinarith [h.1, h.2]

/-- The weighted ABS/INC mix followed by exponential smoothing and the
per-tick step limiter stays inside [lo, hi] whenever both mix inputs and
the previous angle are inside [lo, hi]. -/
lemma pipeline_mix_mem {lo hi last a b w α m : ℚ} (hla : lo ≤ a) (hah : a ≤ hi)
    (hlb : lo ≤ b) (hbh : b ≤ hi) (hll : lo ≤ last) (hlh : last ≤ hi)
    (hw0 : 0 ≤ w) (hw1 : w ≤ 1) (hα0 : 0 ≤ α) (hα1 : α ≤ 1) (hm : 0 ≤ m) :
    lo ≤ Fusion.limit_step last (α * (w * a + (1 - w) * b) + (1 - α) * last) m ∧
      Fusion.limit_step last (α * (w * a + (1 - w) * b) + (1 - α) * last) m ≤ hi := by
  have hd := convex_mem hla hah hlb hbh hw0 hw1
  exact pipeline_mem hll hlh hd.1 hd.2 hα0 hα1 hm

/-- C10: for all inputs with max_step ≥ 0, limit_step returns a value
between current and target, differing from current by at most max_step,
and equal to target whenever the target is within max_step of current;
consequently each eye servo command of the fused tracking branch changes
by at most MAX_STEP_DEG_H (3°) horizontally and MAX_STEP_DEG_V (2°)
vertically per tick. -/
theorem claim10_limit_step :
    (∀ c t m : ℚ, 0 ≤ m →
        min c t ≤ Fusion.limit_step c t m ∧ Fusion.limit_step c t m ≤ max c t ∧
        |Fusion.limit_step c t m - c| ≤ m ∧
        (|t - c| ≤ m → Fusion.limit_step c t m = t)) ∧
    (∀ (i : Fusion.TickInput) (s : Fusion.EyesState),
        |(Fusion.eyesTrack i s).last_h_izq - s.last_h_izq| ≤ Fusion.MAX_STEP_DEG_H ∧
        |(Fusion.eyesTrack i s).last_h_der - s.last_h_der| ≤ Fusion.MAX_STEP_DEG_H ∧
        |(Fusion.eyesTrack i s).last_v_izq - s.last_v_izq| ≤ Fusion.MAX_STEP_DEG_V ∧
        |(Fusion.eyesTrack i s).last_v_der - s.last_v_der| ≤ Fusion.MAX_STEP_DEG_V) := by
  constructor
  · intro c t m hm
    have h1 := limit_step_between c t m hm
    exact ⟨h1.1, h1.2, limit_step_dist c t m hm, limit_step_reach c t m⟩
  · intro i s
    simp only [Fusion.eyesTrack, Fusion.eyesTrackOut]
    refine ⟨?_, ?_, ?_, ?_⟩
    · exact limit_step_dist _ _ _ (by norm_num [Fusion.MAX_STEP_DEG_H])
    · exact limit_step_dist _ _ _ (by norm_num [Fusion.MAX_STEP_DEG_H])
    · exact limit_step_dist _ _ _ (by norm_num [Fusion.MAX_STEP_DEG_V])
    · exact limit_step_dist _ _ _ (by norm_num [Fusion.MAX_STEP_DEG_V])

/-- Witness for C10 at concrete inputs: stepping from 5 toward 100 with
step bound 3 stays within 3 of 5, and a target within the bound (7) is
reached exactly; the slew bound also holds on a concrete tick. -/
theorem claim10_witness :
    |Fusion.limit_step 5 100 3 - 5| ≤ 3 ∧ Fusion.limit_step 5 7 3 = 7 ∧
      |(Fusion.eyesTrack Fusion.onTargetInput Fusion.restState120).last_h_izq -
          Fusion.restState120.last_h_izq| ≤ Fusion.MAX_STEP_DEG_H := by
  refine ⟨?_, ?_, ?_⟩
  · exact (claim10_limit_step.1 5 100 3 (by norm_num)).2.2.1
  · exact (claim10_limit_step.1 5 7 3 (by norm_num)).2.2.2 (by norm_num)
  · exact (claim10_limit_step.2 Fusion.onTargetInput Fusion.restState120).1

/-- Membership bounds for the pan script's clamp. -/
lemma pan_clamp_mem (v lo hi : ℚ) (h : lo ≤ hi) :
    lo ≤ Pan.clamp v lo hi ∧ Pan.clamp v lo hi ≤ hi := by
  rw [pan_clamp_eq]
  exact clamp_mem v lo hi h

/-- C1: over every tick of the control loop (tracking, searching,
centering or idle) the stored pan angle stays inside
[ANGLE_MIN, ANGLE_MAX], and the fused script's eye horizontal axis stays
inside [H_MIN, H_MAX] over the tracking tick; a requested angle outside
the limits is silently clamped to the nearest limit (limits [90, 180]:
200 stores 180, -10 stores 90). -/
theorem claim1_clamping :
    (∀ (face : Option Pan.PanObs) (now_ms dt : ℚ) (s : Pan.PanState),
        Pan.ANGLE_MIN ≤ s.last_ang → s.last_ang ≤ Pan.ANGLE_MAX →
        Pan.ANGLE_MIN ≤ (Pan.panTick face now_ms dt s).last_ang ∧
          (Pan.panTick face now_ms dt s).last_ang ≤ Pan.ANGLE_MAX) ∧
    (∀ (i : Fusion.TickInput) (s : Fusion.EyesState),
        Fusion.H_MIN ≤ s.last_h_izq → s.last_h_izq ≤ Fusion.H_MAX →
        Fusion.H_MIN ≤ (Fusion.eyesTrack i s).last_h_izq ∧
          (Fusion.eyesTrack i s).last_h_izq ≤ Fusion.H_MAX) ∧
    Pan.clamp 200 Pan.ANGLE_MIN Pan.ANGLE_MAX = 180 ∧
    Pan.clamp (-10) Pan.ANGLE_MIN Pan.ANGLE_MAX = 90 := by
  refine ⟨?_, ?_, by decide, by decide⟩
  · intro face now_ms dt s h1 h2
    cases face with
    | some o =>
      simp only [Pan.panTick, Pan.panFace]
      refine convex_mem (pan_clamp_mem _ _ _ ?_).1 (pan_clamp_mem _ _ _ ?_).2 h1 h2 ?_ ?_ <;>
        norm_num [Pan.ANGLE_MIN, Pan.ANGLE_MAX, Pan.SMOOTH_ALPHA]
    | none =>
      simp only [Pan.panTick, Pan.panNoFace]
      split_ifs <;>
        first
          | exact ⟨h1, h2⟩
          | exact pan_clamp_mem _ _ _ (by norm_num [Pan.ANGLE_MIN, Pan.ANGLE_MAX])
          | exact ⟨by norm_num [Pan.CENTER_ANGLE, Pan.ANGLE_MIN],
              by norm_num [Pan.CENTER_ANGLE, Pan.ANGLE_MAX]⟩
  · intro i s h1 h2
    simp only [Fusion.eyesTrack, Fusion.eyesTrackOut, Fusion.mix]
    refine pipeline_mix_mem (clamp_mem _ _ _ ?_).1 (clamp_mem _ _ _ ?_).2
      (clamp_mem _ _ _ ?_).1 (clamp_mem _ _ _ ?_).2 h1 h2 (w_abs_mem _).1 (w_abs_mem _).2
      ?_ ?_ ?_ <;>
      norm_num [Fusion.H_MIN, Fusion.H_MAX, Fusion.SMOOTH_ALPHA_H, Fusion.MAX_STEP_DEG_H]

/-- Witness for C1 at concrete inputs: a no-face tick at 500 ms from the
initial pan state keeps the angle inside [90, 180], and a tracking tick
of the fused eyes from 120° stays inside [15, 165]. -/
theorem claim1_witness :
    (Pan.ANGLE_MIN ≤ (Pan.panTick none 500 (1 / 30) Pan.panInit).last_ang ∧
        (Pan.panTick none 500 (1 / 30) Pan.panInit).last_ang ≤ Pan.ANGLE_MAX) ∧
      (Fusion.H_MIN ≤ (Fusion.eyesTrack Fusion.onTargetInput Fusion.restState120).last_h_izq ∧
        (Fusion.eyesTrack Fusion.onTargetInput Fusion.restState120).last_h_izq ≤
          Fusion.H_MAX) :=
  ⟨claim1_clamping.1 none 500 (1 / 30) Pan.panInit (by decide) (by decide),
    claim1_clamping.2.1 Fusion.onTargetInput Fusion.restState120 (by decide) (by decide)⟩

/-- C2: after every PID update tick (any error, any dt > 0) the
accumulated integral of each regulator stays within its clamp: the fused
eye regulators within [-I_CLAMP_EYES, I_CLAMP_EYES], the fused neck
yaw/pitch regulators and the pan regulator within [-I_CLAMP, I_CLAMP];
in particular 1000 ticks of constant error 1.0 with dt = 0.1 leave the
pan integral within [-30, 30]. -/
theorem claim2_antiwindup :
    (∀ (i : Fusion.TickInput) (s : Fusion.EyesState), 0 < i.dt →
        -Fusion.I_CLAMP_EYES ≤ (Fusion.eyesTrack i s).sum_err_h_e ∧
        (Fusion.eyesTrack i s).sum_err_h_e ≤ Fusion.I_CLAMP_EYES ∧
        -Fusion.I_CLAMP_EYES ≤ (Fusion.eyesTrack i s).sum_err_v_e ∧
        (Fusion.eyesTrack i s).sum_err_v_e ≤ Fusion.I_CLAMP_EYES) ∧
    (∀ (i : Fusion.TickInput) (s : Fusion.HeadState), 0 < i.dt →
        -Fusion.I_CLAMP_HEAD ≤ (Fusion.headTrack i s).sum_err_yaw ∧
        (Fusion.headTrack i s).sum_err_yaw ≤ Fusion.I_CLAMP_HEAD ∧
        -Fusion.I_CLAMP_HEAD ≤ (Fusion.headTrack i s).sum_err_pitch ∧
        (Fusion.headTrack i s).sum_err_pitch ≤ Fusion.I_CLAMP_HEAD) ∧
    (∀ (o : Pan.PanObs) (now_ms dt : ℚ) (s : Pan.PanState), 0 < dt →
        -Pan.I_CLAMP ≤ (Pan.panFace o now_ms dt s).sum_err ∧
        (Pan.panFace o now_ms dt s).sum_err ≤ Pan.I_CLAMP) ∧
    (-Pan.I_CLAMP ≤ (Nat.iterate Pan.panWindupStep 1000 Pan.panInit).sum_err ∧
      (Nat.iterate Pan.panWindupStep 1000 Pan.panInit).sum_err ≤ Pan.I_CLAMP) := by
  have hpan : ∀ (o : Pan.PanObs) (now_ms dt : ℚ) (s : Pan.PanState),
      -Pan.I_CLAMP ≤ (Pan.panFace o now_ms dt s).sum_err ∧
        (Pan.panFace o now_ms dt s).sum_err ≤ Pan.I_CLAMP := by
    intro o now_ms dt s
    simp only [Pan.panFace]
    exact pan_clamp_mem _ _ _ (by norm_num [Pan.I_CLAMP])
  refine ⟨?_, ?_, fun o now_ms dt s _ => hpan o now_ms dt s, ?_⟩
  · intro i s _
    simp only [Fusion.eyesTrack, Fusion.eyesTrackOut]
    have h1 := clamp_mem (s.sum_err_h_e +
        ((1 - Fusion.ERR_LP_ALPHA) * s.err_x_f + Fusion.ERR_LP_ALPHA *
          (Fusion.deadband Fusion.DEADBAND_PX_X_EYES (i.face_cx - i.tx) / (i.w / 2))) * i.dt)
      (-Fusion.I_CLAMP_EYES) Fusion.I_CLAMP_EYES (by norm_num [Fusion.I_CLAMP_EYES])
    have h2 := clamp_mem (s.sum_err_v_e +
        ((1 - Fusion.ERR_LP_ALPHA) * s.err_y_f + Fusion.ERR_LP_ALPHA *
          (Fusion.deadband Fusion.DEADBAND_PX_Y_EYES (i.face_cy - i.ty) / (i.h / 2))) * i.dt)
      (-Fusion.I_CLAMP_EYES) Fusion.I_CLAMP_EYES (by norm_num [Fusion.I_CLAMP_EYES])
    exact ⟨h1.1, h1.2, h2.1, h2.2⟩
  · intro i s _
    simp only [Fusion.headTrack]
    have h1 := clamp_mem (s.sum_err_yaw +
        Fusion.deadband Fusion.DEADBAND_PX_X_HEAD ((i.face_cx - i.cx_frame) * Fusion.INVERT_YAW) /
          (i.w / 2) * i.dt)
      (-Fusion.I_CLAMP_HEAD) Fusion.I_CLAMP_HEAD (by norm_num [Fusion.I_CLAMP_HEAD])
    have h2 := clamp_mem (s.sum_err_pitch +
        Fusion.deadband Fusion.DEADBAND_PX_Y_HEAD ((i.face_cy - i.cy_frame) * Fusion.INVERT_PITCH) /
          (i.h / 2) * i.dt)
      (-Fusion.I_CLAMP_HEAD) Fusion.I_CLAMP_HEAD (by norm_num [Fusion.I_CLAMP_HEAD])
    exact ⟨h1.1, h1.2, h2.1, h2.2⟩
  · rw [show (1000 : ℕ) = 999 + 1 from rfl, Function.iterate_succ_apply']
    exact hpan Pan.leftEdgeObs 0 (1 / 10) (Nat.iterate Pan.panWindupStep 999 Pan.panInit)

/-- Witness for C2 at a concrete input: one windup tick from the initial
pan state with dt = 0.1 keeps the integral within [-30, 30]. -/
theorem claim2_witness :
    -Pan.I_CLAMP ≤ (Pan.panFace Pan.leftEdgeObs 0 (1 / 10) Pan.panInit).sum_err ∧
      (Pan.panFace Pan.leftEdgeObs 0 (1 / 10) Pan.panInit).sum_err ≤ Pan.I_CLAMP :=
  claim2_antiwindup.2.2.1 Pan.leftEdgeObs 0 (1 / 10) Pan.panInit (by norm_num)

/-- Counterexample to C3 as stated: on a tick whose pixel offsets are 0,
inside both eye deadbands, with all PID and filter state at rest but the
left horizontal eye parked at 120°, the fused tracking tick still moves
the commanded angle (the absolute-gaze blend pulls it toward center), so
an in-deadband observation does not leave every tracking axis at its
previous value. -/
theorem claim3_counterexample :
    |Fusion.onTargetInput.face_cx - Fusion.onTargetInput.tx| ≤ Fusion.DEADBAND_PX_X_EYES ∧
    |Fusion.onTargetInput.face_cy - Fusion.onTargetInput.ty| ≤ Fusion.DEADBAND_PX_Y_EYES ∧
    (Fusion.eyesTrack Fusion.onTargetInput Fusion.restState120).last_h_izq ≠
      Fusion.restState120.last_h_izq := by
  refine ⟨?_, ?_, ?_⟩
  · norm_num [Fusion.onTargetInput, Fusion.DEADBAND_PX_X_EYES]
  · norm_num [Fusion.onTargetInput, Fusion.DEADBAND_PX_Y_EYES]
  · norm_num [Fusion.eyesTrack, Fusion.eyesTrackOut, Fusion.onTargetInput,
      Fusion.restState120, Fusion.eyesInit, Fusion.deadband, Fusion.pyabs, Fusion.pymin,
      Fusion.pymax, Fusion.clamp, Fusion.mix, Fusion.near_gain, Fusion.limit_step,
      Fusion.H_CENTER, Fusion.H_MIN, Fusion.H_MAX, Fusion.V_MIN_IZQ, Fusion.V_MAX_IZQ,
      Fusion.V_MIN_DER, Fusion.V_MAX_DER, Fusion.INVERT_H, Fusion.INVERT_V_IZQ,
      Fusion.INVERT_V_DER, Fusion.H_ABS_GAIN_DEG, Fusion.KP_H, Fusion.KI_H, Fusion.KD_H,
      Fusion.KP_V, Fusion.KI_V, Fusion.KD_V, Fusion.SMOOTH_ALPHA_H, Fusion.SMOOTH_ALPHA_V,
      Fusion.DEADBAND_PX_X_EYES, Fusion.DEADBAND_PX_Y_EYES, Fusion.I_CLAMP_EYES,
      Fusion.MAX_STEP_DEG_H, Fusion.MAX_STEP_DEG_V, Fusion.ERR_LP_ALPHA]

/-- An in-range value is a fixed point of the tracker's clamp. -/
lemma tracker_clamp_of_mem {v lo hi : ℚ} (h1 : lo ≤ v) (h2 : v ≤ hi) :
    Tracker.clamp v lo hi = v := by
  unfold Tracker.clamp
  rw [pymin_eq_min, pymax_eq_max, min_eq_right h2, max_eq_right h1]

/-- C3 (amended): a pixel offset at or below the configured deadband
zeroes that axis's raw error before normalization (strictly below, in
inmoov_face_tracker); with the low-pass filter and derivative history at
zero the PID output of the fused eyes branch is exactly zero, and in
inmoov_face_tracker an in-deadband error leaves all four eye angles at
their previous values — but a fused tracking axis may still move on such
a tick, as the counterexample shows. -/
theorem claim3_deadband :
    (∀ db e : ℚ, |e| ≤ db → Fusion.deadband db e = 0) ∧
    (∀ (i : Fusion.TickInput) (s : Fusion.EyesState),
        |i.face_cx - i.tx| ≤ Fusion.DEADBAND_PX_X_EYES → s.err_x_f = 0 →
        s.last_err_h_e = 0 → (Fusion.eyesTrackOut i s).pid_h = 0) ∧
    (∀ (i : Fusion.TickInput) (s : Fusion.EyesState),
        |i.face_cy - i.ty| ≤ Fusion.DEADBAND_PX_Y_EYES → s.err_y_f = 0 →
        s.last_err_v_e = 0 → (Fusion.eyesTrackOut i s).pid_v = 0) ∧
    (∀ (ex ey : ℚ) (s : Tracker.TrackerState),
        |ex| < Tracker.DEADBAND_X → |ey| < Tracker.DEADBAND_Y →
        Tracker.EYE_H_MIN ≤ s.current_eye_left_h → s.current_eye_left_h ≤ Tracker.EYE_H_MAX →
        Tracker.EYE_H_MIN ≤ s.current_eye_right_h → s.current_eye_right_h ≤ Tracker.EYE_H_MAX →
        Tracker.EYE_V_MIN ≤ s.current_eye_left_v → s.current_eye_left_v ≤ Tracker.EYE_V_MAX →
        Tracker.EYE_V_MIN ≤ s.current_eye_right_v → s.current_eye_right_v ≤ Tracker.EYE_V_MAX →
        Tracker.calculate_eye_position s ex ey =
          (s.current_eye_left_h, s.current_eye_right_h, s.current_eye_left_v,
            s.current_eye_right_v)) := by
  have hdead : ∀ db e : ℚ, |e| ≤ db → Fusion.deadband db e = 0 := by
    intro db e h
    unfold Fusion.deadband
    rw [pyabs_eq_abs, if_pos h]
  refine ⟨hdead, ?_, ?_, ?_⟩
  · intro i s hx h0 hl
    simp [Fusion.eyesTrackOut, hdead _ _ hx, h0, hl, Fusion.KI_H]
  · intro i s hy h0 hl
    simp [Fusion.eyesTrackOut, hdead _ _ hy, h0, hl, Fusion.KI_V]
  · intro ex ey s hx hy ha1 ha2 hb1 hb2 hc1 hc2 hd1 hd2
    have hx2 : Fusion.pyabs ex < Tracker.DEADBAND_X := by rwa [pyabs_eq_abs]
    have hy2 : Fusion.pyabs ey < Tracker.DEADBAND_Y := by rwa [pyabs_eq_abs]
    simp only [Tracker.calculate_eye_position, if_pos hx2, if_pos hy2, neg_zero, zero_mul,
      add_zero]
    rw [tracker_clamp_of_mem ha1 ha2, tracker_clamp_of_mem hb1 hb2,
      tracker_clamp_of_mem hc1 hc2, tracker_clamp_of_mem hd1 hd2]
    simp only [Prod.mk.injEq]
    exact ⟨by ring, by ring, by ring, by ring⟩

/-- Witness for C3 (amended) at concrete inputs: a 35 px offset with a
40 px deadband is zeroed; the fused eyes tick with zero history yields a
zero PID output; the tracker's eyes stay at 90° on an in-deadband error. -/
theorem claim3_witness :
    Fusion.deadband 40 35 = 0 ∧
      (Fusion.eyesTrackOut Fusion.onTargetInput Fusion.restState120).pid_h = 0 ∧
      Tracker.calculate_eye_position ⟨90, 90, 90, 90, 90⟩ 35 20 = (90, 90, 90, 90) :=
  ⟨claim3_deadband.1 40 35 (by norm_num),
    claim3_deadband.2.1 Fusion.onTargetInput Fusion.restState120
      (by norm_num [Fusion.onTargetInput, Fusion.DEADBAND_PX_X_EYES]) rfl rfl,
    claim3_deadband.2.2.2 35 20 ⟨90, 90, 90, 90, 90⟩ (by norm_num [Tracker.DEADBAND_X])
      (by norm_num [Tracker.DEADBAND_Y])
      (by norm_num [Tracker.EYE_H_MIN]) (by norm_num [Tracker.EYE_H_MAX])
      (by norm_num [Tracker.EYE_H_MIN]) (by norm_num [Tracker.EYE_H_MAX])
      (by norm_num [Tracker.EYE_V_MIN]) (by norm_num [Tracker.EYE_V_MAX])
      (by norm_num [Tracker.EYE_V_MIN]) (by norm_num [Tracker.EYE_V_MAX])⟩


/-- C4: with LOST_AFTER_MS = 300 and RETURN_CENTER_AFTER_MS_HEAD = 8000,
a head region with no face observations and a known last-seen direction
is SEARCHING at elapsed 500 ms (sweeping at the configured rate, with
the tracking sign convention, clamped to limits), is CENTERING at
elapsed 8500 ms and flips to CENTERED once both axes are within 1° of
center, and any tick with a face present is TRACKING (reacquisition from
any state takes one tick and refreshes the last-seen clock). -/
theorem claim4_state_machine :
    (∀ (now_ms : ℚ) (s : Fusion.HeadState),
        Fusion.headMode true now_ms s = Fusion.Mode.tracking) ∧
    (∀ s : Fusion.HeadState, s.last_seen_dir_x ≠ 0 ∨ s.last_seen_dir_y ≠ 0 →
        s.is_centered_head = false →
        Fusion.headMode false (s.last_seen_ms_head + 500) s = Fusion.Mode.searching) ∧
    (∀ (s : Fusion.HeadState) (dt : ℚ), s.last_seen_dir_x ≠ 0 → s.is_centered_head = false →
        (Fusion.headNoFace (s.last_seen_ms_head + 500) dt s).last_yaw =
          Fusion.clamp
            (s.last_yaw + (s.last_seen_dir_x : ℚ) * Fusion.INVERT_YAW *
              Fusion.SEARCH_RATE_DPS_X * dt) Fusion.YAW_MIN Fusion.YAW_MAX) ∧
    (∀ s : Fusion.HeadState, s.is_centered_head = false →
        Fusion.headMode false (s.last_seen_ms_head + 8500) s = Fusion.Mode.centering) ∧
    (∀ (s : Fusion.HeadState) (dt : ℚ), s.is_centered_head = false →
        |Fusion.YAW_CENTER - s.last_yaw| ≤ 1 → |Fusion.PITCH_CENTER - s.last_pitch| ≤ 1 →
        (Fusion.headNoFace (s.last_seen_ms_head + 8500) dt s).is_centered_head = true) ∧
    (∀ (now_ms : ℚ) (s : Fusion.HeadState), s.is_centered_head = true →
        Fusion.headMode false now_ms s = Fusion.Mode.centered) ∧
    (∀ (i : Fusion.TickInput) (s : Fusion.HeadState),
        (Fusion.headTrack i s).is_centered_head = false ∧
        (Fusion.headTrack i s).last_seen_ms_head = i.now_ms) := by
  have harith : ∀ a b : ℚ, a + b - a = b := by intro a b; ring
  refine ⟨?_, ?_, ?_, ?_, ?_, ?_, ?_⟩
  · intro now_ms s
    simp [Fusion.headMode]
  · intro s hdir hc
    simp only [Fusion.headMode, harith, Bool.false_eq_true, if_false]
    split_ifs with h1 h2 h3
    · exact absurd h1.1 (by norm_num [Fusion.RETURN_CENTER_AFTER_MS_HEAD])
    · rfl
    · exact absurd ⟨by norm_num [Fusion.LOST_AFTER_MS], hdir, hc⟩ h2
    · exact absurd ⟨by norm_num [Fusion.LOST_AFTER_MS], hdir, hc⟩ h2
  · intro s dt hdir hc
    simp only [Fusion.headNoFace, harith]
    have hno : ¬(Fusion.RETURN_CENTER_AFTER_MS_HEAD < 500 ∧ s.is_centered_head = false) := by
      norm_num [Fusion.RETURN_CENTER_AFTER_MS_HEAD]
    have hyes : Fusion.LOST_AFTER_MS < 500 ∧
        (s.last_seen_dir_x ≠ 0 ∨ s.last_seen_dir_y ≠ 0) ∧ s.is_centered_head = false :=
      ⟨by norm_num [Fusion.LOST_AFTER_MS], Or.inl hdir, hc⟩
    rw [if_neg hno, if_pos hyes]
    simp [hdir]
  · intro s hc
    simp only [Fusion.headMode, harith, Bool.false_eq_true, if_false]
    rw [if_pos ⟨show Fusion.RETURN_CENTER_AFTER_MS_HEAD < 8500 by
      norm_num [Fusion.RETURN_CENTER_AFTER_MS_HEAD], hc⟩]
  · intro s dt hc h1 h2
    simp only [Fusion.headNoFace, harith]
    have hyes : Fusion.RETURN_CENTER_AFTER_MS_HEAD < 8500 ∧ s.is_centered_head = false :=
      ⟨by norm_num [Fusion.RETURN_CENTER_AFTER_MS_HEAD], hc⟩
    have hno : ¬(1 < Fusion.pyabs (Fusion.YAW_CENTER - s.last_yaw) ∨
        1 < Fusion.pyabs (Fusion.PITCH_CENTER - s.last_pitch)) := by
      rw [pyabs_eq_abs, pyabs_eq_abs]
      push_neg
      exact ⟨h1, h2⟩
    rw [if_pos hyes, if_neg hno]
  · intro now_ms s hc
    simp [Fusion.headMode, hc]
  · intro i s
    simp [Fusion.headTrack]

/-- Witness for C4 at a concrete state: head last seen at time 0 looking
right with yaw 170°: tracking on a face tick, searching at 500 ms,
centering at 8500 ms; the near-center state flips to centered at
8500 ms. -/
theorem claim4_witness :
    Fusion.headMode true 100 Fusion.headAway = Fusion.Mode.tracking ∧
      Fusion.headMode false 500 Fusion.headAway = Fusion.Mode.searching ∧
      Fusion.headMode false 8500 Fusion.headAway = Fusion.Mode.centering ∧
      (Fusion.headNoFace 8500 (1 / 30) Fusion.headNear).is_centered_head = true := by
  have h1 := claim4_state_machine.1 100 Fusion.headAway
  have h2 := claim4_state_machine.2.1 Fusion.headAway
    (Or.inl (by norm_num [Fusion.headAway])) rfl
  have h4 := claim4_state_machine.2.2.2.1 Fusion.headAway rfl
  have h5 := claim4_state_machine.2.2.2.2.1 Fusion.headNear (1 / 30) rfl
    (by norm_num [Fusion.headNear, Fusion.headAway, Fusion.YAW_CENTER, abs_le])
    (by norm_num [Fusion.headNear, Fusion.headAway, Fusion.PITCH_CENTER, abs_le])
  refine ⟨h1, ?_, ?_, ?_⟩
  · simpa [Fusion.headAway] using h2
  · simpa [Fusion.headAway] using h4
  · simpa [Fusion.headNear, Fusion.headAway] using h5

/-- C5 (code bug witness): the eyes re-centering is one-shot.  After a
first long loss the eyes snap to center and set is_centered_eyes; a
reacquired face at 7100 ms moves the left eye off center (to 87°)
without ever clearing is_centered_eyes — the face branch resets only the
head flag — so at 14000 ms, 6900 ms past the last observation and past
RETURN_CENTER_AFTER_MS_EYES again, the no-face branch leaves the state
completely unchanged: the eyes never ease back to center again. -/
theorem claim5_eyes_recenter_bug :
    Fusion.lostEyes1.is_centered_eyes = true ∧
      Fusion.reacqEyes.last_h_izq ≠ Fusion.H_CENTER ∧
      Fusion.reacqEyes.is_centered_eyes = true ∧
      Fusion.RETURN_CENTER_AFTER_MS_EYES < 14000 - Fusion.reacqEyes.last_seen_ms_eyes ∧
      Fusion.lostEyes2 = Fusion.reacqEyes ∧
      Fusion.lostEyes2.last_h_izq ≠ Fusion.H_CENTER := by
  norm_num [Fusion.lostEyes1, Fusion.lostEyes2, Fusion.reacqEyes, Fusion.eyesNoFace,
    Fusion.eyesTrack, Fusion.eyesTrackOut, Fusion.eyesInit, Fusion.farRightInput,
    Fusion.deadband, Fusion.pyabs, Fusion.pymin, Fusion.pymax, Fusion.clamp, Fusion.mix,
    Fusion.near_gain, Fusion.limit_step, Fusion.H_CENTER, Fusion.H_MIN, Fusion.H_MAX,
    Fusion.V_MIN_IZQ, Fusion.V_MAX_IZQ, Fusion.V_MIN_DER, Fusion.V_MAX_DER,
    Fusion.V_CENTER_IZQ, Fusion.V_CENTER_DER, Fusion.INVERT_H, Fusion.INVERT_V_IZQ,
    Fusion.INVERT_V_DER, Fusion.H_ABS_GAIN_DEG, Fusion.KP_H, Fusion.KI_H, Fusion.KD_H,
    Fusion.KP_V, Fusion.KI_V, Fusion.KD_V, Fusion.SMOOTH_ALPHA_H, Fusion.SMOOTH_ALPHA_V,
    Fusion.DEADBAND_PX_X_EYES, Fusion.DEADBAND_PX_Y_EYES, Fusion.I_CLAMP_EYES,
    Fusion.MAX_STEP_DEG_H, Fusion.MAX_STEP_DEG_V, Fusion.ERR_LP_ALPHA,
    Fusion.RETURN_CENTER_AFTER_MS_EYES]

/-- A value at least 1 clamps to exactly 1 in [0, 1]. -/
lemma clamp01_of_one_le {v : ℚ} (h : 1 ≤ v) : Fusion.clamp v 0 1 = 1 := by
  unfold Fusion.clamp
  split_ifs with h1 h2
  · linarith
  · rfl
  · linarith

/-- The ease-in/ease-out curve reaches exactly 1 at progress 1. -/
lemma ease_one : Fusion.ease_in_out 1 = 1 := by norm_num [Fusion.ease_in_out]

/-- The phase deadline of a blink phase is positive. -/
lemma blink_dur_pos (d : ℚ) : 0 < Fusion.pymax (1 / 1000) d := by
  rw [pymax_eq_max]
  exact lt_of_lt_of_le (by norm_num) (le_max_left (1 / 1000) d)

/-- C6: the blink animator is never left mid-motion.  From idle with an
expired schedule it enters closing (drawing a pending count of 2 on a
double-blink roll and 1 otherwise); closing reaches hold with the lids
exactly at the closed angles once both randomized durations elapse; hold
reaches opening after the hold duration; opening returns to idle with
both lids exactly at the configured open angles, decrementing the
pending count and scheduling the intra-double pause while a blink is
still pending, the long interval otherwise.  A concrete run with a
double-blink roll visits closing → hold → opening → idle exactly twice,
back to back, and ends with open lids and no pending blink. -/
theorem claim6_blink :
    (∀ (r : Fusion.BlinkRnd) (now : ℚ) (s : Fusion.BlinkState),
        s.blink_phase = Fusion.BlinkPhase.idle → s.next_blink_time ≤ now →
        0 ≤ s.blink_queue →
        (Fusion.update_blink r now s).blink_phase = Fusion.BlinkPhase.closing ∧
        (Fusion.update_blink r now s).phase_t0 = now ∧
        (s.blink_queue = 0 →
          (Fusion.update_blink r now s).blink_queue = if r.double_roll then 2 else 1)) ∧
    (∀ (r : Fusion.BlinkRnd) (now : ℚ) (s : Fusion.BlinkState),
        s.blink_phase = Fusion.BlinkPhase.closing →
        Fusion.pymax (1 / 1000) s.dur_close_sup ≤ now - s.phase_t0 →
        Fusion.pymax (1 / 1000) s.dur_close_inf ≤ now - s.phase_t0 →
        (Fusion.update_blink r now s).blink_phase = Fusion.BlinkPhase.hold ∧
        (Fusion.update_blink r now s).ang_sup = Fusion.eyelid_closed_angles.1 ∧
        (Fusion.update_blink r now s).ang_inf = Fusion.eyelid_closed_angles.2) ∧
    (∀ (r : Fusion.BlinkRnd) (now : ℚ) (s : Fusion.BlinkState),
        s.blink_phase = Fusion.BlinkPhase.hold → s.hold_dur ≤ now - s.phase_t0 →
        (Fusion.update_blink r now s).blink_phase = Fusion.BlinkPhase.opening) ∧
    (∀ (r : Fusion.BlinkRnd) (now : ℚ) (s : Fusion.BlinkState),
        s.blink_phase = Fusion.BlinkPhase.opening →
        Fusion.pymax (1 / 1000) s.dur_open_sup ≤ now - s.phase_t0 →
        Fusion.pymax (1 / 1000) s.dur_open_inf ≤ now - s.phase_t0 →
        (Fusion.update_blink r now s).blink_phase = Fusion.BlinkPhase.idle ∧
        (Fusion.update_blink r now s).ang_sup = Fusion.eyelid_open_angles.1 ∧
        (Fusion.update_blink r now s).ang_inf = Fusion.eyelid_open_angles.2 ∧
        (Fusion.update_blink r now s).blink_queue = s.blink_queue - 1 ∧
        (Fusion.update_blink r now s).next_blink_time =
          (if 0 < s.blink_queue - 1 then now + r.pause_len else now + r.interval_len)) ∧
    (Fusion.blinkPhases Fusion.doubleTicks Fusion.blinkInit =
        [Fusion.BlinkPhase.closing, Fusion.BlinkPhase.hold, Fusion.BlinkPhase.opening,
          Fusion.BlinkPhase.idle, Fusion.BlinkPhase.closing, Fusion.BlinkPhase.hold,
          Fusion.BlinkPhase.opening, Fusion.BlinkPhase.idle, Fusion.BlinkPhase.idle] ∧
      (Fusion.runBlink Fusion.doubleTicks Fusion.blinkInit).ang_sup =
        Fusion.eyelid_open_angles.1 ∧
      (Fusion.runBlink Fusion.doubleTicks Fusion.blinkInit).ang_inf =
        Fusion.eyelid_open_angles.2 ∧
      (Fusion.runBlink Fusion.doubleTicks Fusion.blinkInit).blink_queue = 0 ∧
      (Fusion.runBlink Fusion.doubleTicks Fusion.blinkInit).blink_phase =
        Fusion.BlinkPhase.idle) := by
  refine ⟨?_, ?_, ?_, ?_, ?_⟩
  · intro r now s hphase hnext hq0
    simp only [Fusion.update_blink, hphase]
    rw [if_pos hnext]
    by_cases hq : s.blink_queue = 0
    · rw [if_pos hq]
      by_cases hd : r.double_roll
      · simp [Fusion.schedule_next_blink, Fusion.start_blink, hd, hq]
      · simp [Fusion.schedule_next_blink, Fusion.start_blink, hd, hq]
    · rw [if_neg hq, if_pos (lt_of_le_of_ne hq0 (Ne.symm hq))]
      simp [Fusion.start_blink, hq]
  · intro r now s hphase h1 h2
    simp only [Fusion.update_blink, hphase]
    have hk1 : (1 : ℚ) ≤ (now - s.phase_t0) / Fusion.pymax (1 / 1000) s.dur_close_sup :=
      (one_le_div (blink_dur_pos s.dur_close_sup)).mpr h1
    have hk2 : (1 : ℚ) ≤ (now - s.phase_t0) / Fusion.pymax (1 / 1000) s.dur_close_inf :=
      (one_le_div (blink_dur_pos s.dur_close_inf)).mpr h2
    rw [clamp01_of_one_le hk1, clamp01_of_one_le hk2, ease_one,
      if_pos ⟨le_refl (1 : ℚ), le_refl (1 : ℚ)⟩]
    refine ⟨rfl, ?_, ?_⟩ <;> dsimp only <;> ring
  · intro r now s hphase h
    simp only [Fusion.update_blink, hphase]
    rw [if_pos h]
  · intro r now s hphase h1 h2
    simp only [Fusion.update_blink, hphase]
    have hk1 : (1 : ℚ) ≤ (now - s.phase_t0) / Fusion.pymax (1 / 1000) s.dur_open_sup :=
      (one_le_div (blink_dur_pos s.dur_open_sup)).mpr h1
    have hk2 : (1 : ℚ) ≤ (now - s.phase_t0) / Fusion.pymax (1 / 1000) s.dur_open_inf :=
      (one_le_div (blink_dur_pos s.dur_open_inf)).mpr h2
    rw [clamp01_of_one_le hk1, clamp01_of_one_le hk2, ease_one,
      if_pos ⟨le_refl (1 : ℚ), le_refl (1 : ℚ)⟩]
    refine ⟨rfl, ?_, ?_, rfl, rfl⟩ <;> dsimp only <;> ring
  · norm_num [Fusion.blinkPhases, Fusion.runBlink, Fusion.doubleTicks, Fusion.blinkInit,
      Fusion.doubleRnd, Fusion.update_blink, Fusion.schedule_next_blink, Fusion.start_blink,
      Fusion.eyelid_open_angles, Fusion.eyelid_closed_angles, Fusion.ease_in_out,
      Fusion.clamp, Fusion.pymax, Fusion.ANGLE_MIN_PARPADO_ARRIBA,
      Fusion.ANGLE_MAX_PARPADO_ARRIBA, Fusion.ANGLE_MIN_PARPADO_ABAJO,
      Fusion.ANGLE_MAX_PARPADO_ABAJO, Fusion.SUPERIOR_ESCALA_CIERRE,
      Fusion.INFERIOR_ESCALA_CIERRE]

/-- Witness for C6 at concrete inputs: from the initial idle blink state
with an expired schedule, the first tick enters closing, and a tick at
100 ms (past both close durations of the concrete draw) reaches exactly
the closed eyelid angles. -/
theorem claim6_witness :
    (Fusion.update_blink Fusion.doubleRnd 0 Fusion.blinkInit).blink_phase =
        Fusion.BlinkPhase.closing ∧
      (Fusion.update_blink Fusion.doubleRnd (1 / 10)
          (Fusion.update_blink Fusion.doubleRnd 0 Fusion.blinkInit)).ang_sup =
        Fusion.eyelid_closed_angles.1 := by
  have h1 := claim6_blink.1 Fusion.doubleRnd 0 Fusion.blinkInit rfl (le_refl 0)
    (by norm_num [Fusion.blinkInit])
  have h2 := claim6_blink.2.1 Fusion.doubleRnd (1 / 10)
    (Fusion.update_blink Fusion.doubleRnd 0 Fusion.blinkInit) h1.1
    (by norm_num [Fusion.update_blink, Fusion.blinkInit, Fusion.doubleRnd,
      Fusion.schedule_next_blink, Fusion.start_blink, Fusion.pymax])
    (by norm_num [Fusion.update_blink, Fusion.blinkInit, Fusion.doubleRnd,
      Fusion.schedule_next_blink, Fusion.start_blink, Fusion.pymax])
  exact ⟨h1.1, h2.2.1⟩

/-- Every detection of the list scores at most the running maximum kept
by the fold of maxByScore. -/
lemma foldl_score_le (ds : List Detection) (b : Detection) :
    b.score ≤
        (ds.foldl (fun best x => if best.score < x.score then x else best) b).score ∧
      ∀ x ∈ ds,
        x.score ≤
          (ds.foldl (fun best x => if best.score < x.score then x else best) b).score := by
  induction ds generalizing b with
  | nil => simp
  | cons d tl ih =>
    simp only [List.foldl_cons]
    have h := ih (if b.score < d.score then d else b)
    have hb : b.score ≤ (if b.score < d.score then d else b).score := by
      split_ifs with hlt
      · exact hlt.le
      · exact le_refl _
    have hd : d.score ≤ (if b.score < d.score then d else b).score := by
      split_ifs with hlt
      · exact le_refl _
      · exact not_lt.mp hlt
    refine ⟨le_trans hb h.1, ?_⟩
    intro x hx
    rcases List.mem_cons.mp hx with rfl | hx2
    · exact le_trans hd h.1
    · exact h.2 x hx2

/-- C7 (amended): the fused and pan scripts pick the
highest-confidence detection — whatever maxByScore returns scores at
least as high as every detection of the frame — while
inmoov_face_tracker simply takes the first detection of the list, which
the counterexample shows need not be the highest-confidence one. -/
theorem claim7_highest :
    (∀ (ds : List Detection) (d : Detection), maxByScore ds = some d →
        ∀ x ∈ ds, x.score ≤ d.score) ∧
    (∀ (d : Detection) (ds : List Detection), firstDetection (d :: ds) = some d) := by
  constructor
  · intro ds d h x hx
    cases ds with
    | nil => simp [maxByScore] at h
    | cons a tl =>
      simp only [maxByScore, Option.some.injEq] at h
      subst h
      have hf := foldl_score_le tl a
      rcases List.mem_cons.mp hx with rfl | hx2
      · exact hf.1
      · exact hf.2 x hx2
  · intro d ds
    rfl

/-- Counterexample to C7 as stated: with two detections scoring 1/2 and
9/10, inmoov_face_tracker's selection (detections[0]) returns the 1/2
detection even though a higher-confidence detection is present. -/
theorem claim7_counterexample :
    firstDetection lowFirstDets =
        some { score := 1 / 2, xmin := 0, ymin := 0, width := 1 / 10, height := 1 / 10 } ∧
      ({ score := 9 / 10, xmin := 1 / 2, ymin := 1 / 2, width := 1 / 10, height := 1 / 10 } :
          Detection) ∈ lowFirstDets ∧
      (1 / 2 : ℚ) < 9 / 10 := by
  refine ⟨rfl, by simp [lowFirstDets], by norm_num⟩

/-- Witness for C7 (amended) at a concrete input: on the two-detection
list, the detection selected by maxByScore outscores the weaker one. -/
theorem claim7_witness :
    ({ score := 1 / 2, xmin := 0, ymin := 0, width := 1 / 10, height := 1 / 10 } :
        Detection).score ≤
      ({ score := 9 / 10, xmin := 1 / 2, ymin := 1 / 2, width := 1 / 10, height := 1 / 10 } :
        Detection).score :=
  claim7_highest.1 lowFirstDets
    { score := 9 / 10, xmin := 1 / 2, ymin := 1 / 2, width := 1 / 10, height := 1 / 10 }
    (by norm_num [maxByScore, lowFirstDets])
    { score := 1 / 2, xmin := 0, ymin := 0, width := 1 / 10, height := 1 / 10 }
    (by simp [lowFirstDets])

/-- C8 (amended): with the per-axis guarded writes of
inmoov_face_tracker (set_servo_safe), a faulty channel is skipped and
every non-faulty scheduled channel is still written that tick, with its
angle clamped to the physical 0-180 range — whereas the fused scripts'
unguarded writes abort the rest of the tick on the first faulty channel,
as the counterexample shows. -/
theorem claim8_safe_writes :
    (∀ (fault : ℕ → Bool) (l : List (ℕ × ℚ)) (c : ℕ) (a : ℚ),
        (c, a) ∈ l → fault c = false →
        (c, Fusion.pymax 0 (Fusion.pymin 180 a)) ∈ Tracker.writeSafeRun fault l) ∧
    (∀ (fault : ℕ → Bool) (l : List (ℕ × ℚ)) (p : ℕ × ℚ),
        p ∈ Tracker.writeSafeRun fault l → fault p.1 = false) := by
  constructor
  · intro fault l
    induction l with
    | nil => intro c a h _; simp at h
    | cons hd tl ih =>
      intro c a hmem hok
      rcases List.mem_cons.mp hmem with rfl | h2
      · simp only [Tracker.writeSafeRun, hok, Bool.false_eq_true, if_false]
        exact List.mem_cons_self _ _
      · simp only [Tracker.writeSafeRun]
        split_ifs with hf
        · exact ih c a h2 hok
        · exact List.mem_cons_of_mem _ (ih c a h2 hok)
  · intro fault l
    induction l with
    | nil => intro p h; simp [Tracker.writeSafeRun] at h
    | cons hd tl ih =>
      intro p hmem
      simp only [Tracker.writeSafeRun] at hmem
      split_ifs at hmem with hf
      · exact ih p hmem
      · rcases List.mem_cons.mp hmem with rfl | h2
        · simpa using Bool.not_eq_true _ ▸ hf
        · exact ih p h2

/-- Counterexample to C8 as stated: in the fused script's unguarded
write sequence for the four eye servos, a failure on the first channel
(left eye horizontal, pin 10) aborts the tick with no other write
performed, so the remaining three axes are not commanded. -/
theorem claim8_counterexample :
    writeRun (fun c => c == Fusion.PIN_OJO_IZQ_H) (Fusion.fusionEyeWrites 90 91 92 93) =
        ([], some Fusion.PIN_OJO_IZQ_H) ∧
      (Fusion.PIN_OJO_DER_H, (91 : ℚ)) ∉
        (writeRun (fun c => c == Fusion.PIN_OJO_IZQ_H)
            (Fusion.fusionEyeWrites 90 91 92 93)).1 := by
  constructor
  · simp [writeRun, Fusion.fusionEyeWrites, Fusion.PIN_OJO_IZQ_H]
  · simp [writeRun, Fusion.fusionEyeWrites, Fusion.PIN_OJO_IZQ_H]

/-- Witness for C8 (amended) at a concrete input: with the pitch channel
(2) faulty, the left-eye write of update_servos still lands, clamped. -/
theorem claim8_witness :
    ((6 : ℕ), Fusion.pymax 0 (Fusion.pymin 180 95)) ∈
      Tracker.writeSafeRun (fun c => c == 2) (Tracker.update_servos_writes 95 96 97 98 99) :=
  claim8_safe_writes.1 (fun c => c == 2) (Tracker.update_servos_writes 95 96 97 98 99) 6 95
    (by simp [Tracker.update_servos_writes]) (by decide)

/-- Counterexample to C9 as stated: the shutdown sequence of the fused
script does not leave every axis at its center — after center_all it
commands the head pitch to 135°, while the configured pitch center is
120°, so the pitch axis is left 15° above its rest angle at exit. -/
theorem claim9_counterexample :
    Fusion.finalAngle Fusion.cleanup_writes Fusion.SERVO_PITCH = some 135 ∧
      (135 : ℚ) ≠ Fusion.PITCH_CENTER := by
  constructor
  · simp [Fusion.finalAngle, Fusion.cleanup_writes, Fusion.center_all_writes,
      Fusion.center_eyes_writes, Fusion.center_head_writes, Fusion.center_eyelids_open_writes,
      Fusion.SERVO_PITCH, Fusion.SERVO_YAW, Fusion.SERVO_ROLL_LEFT, Fusion.SERVO_ROLL_RIGHT,
      Fusion.PIN_OJO_IZQ_H, Fusion.PIN_OJO_DER_H, Fusion.PIN_OJO_IZQ_V, Fusion.PIN_OJO_DER_V,
      Fusion.PIN_PARPADO_ARRIBA, Fusion.PIN_PARPADO_ABAJO]
  · norm_num [Fusion.PITCH_CENTER]

/-- C9 (amended): on termination the fused script performs a best-effort
return to center of every axis — yaw, rolls, the four eye axes and the
eyelids each end at their configured center/open angles, and the pan
script returns its axis to its 90° center — except the head pitch, which
is commanded last to 135°, 15° above its configured center of 120°. -/
theorem claim9_cleanup :
    Fusion.finalAngle Fusion.cleanup_writes Fusion.SERVO_YAW = some Fusion.YAW_CENTER ∧
      Fusion.finalAngle Fusion.cleanup_writes Fusion.SERVO_ROLL_LEFT =
        some Fusion.ROLL_CENTER ∧
      Fusion.finalAngle Fusion.cleanup_writes Fusion.SERVO_ROLL_RIGHT =
        some Fusion.ROLL_CENTER ∧
      Fusion.finalAngle Fusion.cleanup_writes Fusion.PIN_OJO_IZQ_H = some Fusion.H_CENTER ∧
      Fusion.finalAngle Fusion.cleanup_writes Fusion.PIN_OJO_DER_H = some Fusion.H_CENTER ∧
      Fusion.finalAngle Fusion.cleanup_writes Fusion.PIN_OJO_IZQ_V =
        some Fusion.V_CENTER_IZQ ∧
      Fusion.finalAngle Fusion.cleanup_writes Fusion.PIN_OJO_DER_V =
        some Fusion.V_CENTER_DER ∧
      Fusion.finalAngle Fusion.cleanup_writes Fusion.PIN_PARPADO_ARRIBA =
        some Fusion.eyelid_open_angles.1 ∧
      Fusion.finalAngle Fusion.cleanup_writes Fusion.PIN_PARPADO_ABAJO =
        some Fusion.eyelid_open_angles.2 ∧
      Fusion.finalAngle Fusion.cleanup_writes Fusion.SERVO_PITCH = some 135 ∧
      Fusion.finalAngle Pan.pan_cleanup_writes Pan.SERVO_PAN = some Pan.CENTER_ANGLE := by
  refine ⟨?_, ?_, ?_, ?_, ?_, ?_, ?_, ?_, ?_, ?_, ?_⟩ <;>
    simp [Fusion.finalAngle, Fusion.cleanup_writes, Fusion.center_all_writes,
      Fusion.center_eyes_writes, Fusion.center_head_writes, Fusion.center_eyelids_open_writes,
      Pan.pan_cleanup_writes, Pan.SERVO_PAN, Pan.CENTER_ANGLE,
      Fusion.SERVO_PITCH, Fusion.SERVO_YAW, Fusion.SERVO_ROLL_LEFT, Fusion.SERVO_ROLL_RIGHT,
      Fusion.PIN_OJO_IZQ_H, Fusion.PIN_OJO_DER_H, Fusion.PIN_OJO_IZQ_V, Fusion.PIN_OJO_DER_V,
      Fusion.PIN_PARPADO_ARRIBA, Fusion.PIN_PARPADO_ABAJO]
